import Mathlib

/-!
Shallow embedding of the "builder-glow-forge" Neural Architecture Search
dashboard backend, covering the data-access façade (src/client/lib/supabase.ts),
the chat handlers (src/api/chat.ts, src/api/shaurya-ai-enhanced.ts), the API
discovery handler (src/api/index.ts), the NAS AI handler and the optimization
handler (src/unnamed/part_011, src/unnamed/part_010).

JavaScript numbers are modelled as rationals (ℚ); the repository performs no
operation where binary-float rounding is observable at the granularity of the
claims under verification.  `Math.random()` draws are modelled as an explicit
stream `rng : ℕ → ℚ`, `Date.now()` as an explicit `now : ℕ` parameter.
-/

/-- JS `String.prototype.includes` helper: does list `p` occur as a prefix of `s`? -/
def listStarts : List Char → List Char → Bool
  | [], _ => true
  | _ :: _, [] => false
  | a :: p, b :: s => a == b && listStarts p s

/-- Does `p` occur as a contiguous segment of the second list? -/
def listHasInfix (p : List Char) : List Char → Bool
  | [] => listStarts p []
  | b :: s => listStarts p (b :: s) || listHasInfix p s

/-- JS `s.includes(pat)`. -/
def jsIncludes (s pat : String) : Bool := listHasInfix pat.toList s.toList

/-- JS `s.toLowerCase()` (the repository only lowercases ASCII prompts). -/
def jsToLower (s : String) : String := ⟨s.data.map Char.toLower⟩

/-- JS `Math.floor` on a rational. -/
def jsFloor (q : ℚ) : ℤ := q.num.fdiv q.den

/-- JS `Math.round` (round half toward +∞). -/
def jsRound (q : ℚ) : ℤ := jsFloor (q + 1/2)

/-- JS `x || d` for an optional numeric field: `undefined` and `0` are falsy. -/
def jsOrQ (v : Option ℚ) (d : ℚ) : ℚ :=
  match v with
  | none => d
  | some x => if x = 0 then d else x

/-- JS `x || 0` for a possibly-missing integer count (`null` and `0` both give 0). -/
def jsOrZ (v : Option ℤ) : ℤ :=
  match v with
  | none => 0
  | some x => if x = 0 then 0 else x

/-- The apostrophe character, spliced into the response templates below. -/
def apos : String := String.singleton (Char.ofNat 39)

/-! ## src/api/chat.ts -/

/-- A chat message as destructured by the handlers. -/
structure ChatMessage where
  role : String
  content : String
deriving DecidableEq

/-- Greeting branch of `generateShauryaResponse` (src/api/chat.ts line 102). -/
def chatGreetingText : String :=
  "Hi there! I" ++ apos ++ "m Shaurya, your AI assistant for Neural Architecture Search. I" ++ apos ++ "m here to help you with search configurations, architecture analysis, and optimization strategies. What would you like to explore today?"

/-- Architecture branch (src/api/chat.ts line 111). -/
def chatArchitectureText : String :=
  "As Shaurya, I can help you understand neural architectures! Are you interested in:\n\nâ€¢ Specific models like EfficientNet, ResNet, or MobileNet?\nâ€¢ Architecture search strategies and algorithms?\nâ€¢ Performance optimization techniques?\nâ€¢ Architecture comparison and analysis?\n\nWhat specific aspect would you like to dive into?"

/-- Search-configuration branch (src/api/chat.ts line 120). -/
def chatSearchText : String :=
  "For Neural Architecture Search, I recommend considering these key factors:\n\nâ€¢ **Search Strategy**: Evolutionary, reinforcement learning, or gradient-based\nâ€¢ **Search Space**: Define your architecture constraints\nâ€¢ **Objective Function**: Balance accuracy, latency, and model size\nâ€¢ **Budget**: Computational resources and time limits\n\nWhich search configuration aspect would you like me to help you with?"

/-- Performance/optimization branch (src/api/chat.ts line 129). -/
def chatPerformanceText : String :=
  "Performance optimization in NAS involves multiple dimensions:\n\nâ€¢ **Accuracy Metrics**: Top-1, Top-5 accuracy, F1-score\nâ€¢ **Efficiency Metrics**: FLOPs, parameters, memory usage\nâ€¢ **Latency**: Inference time on target hardware\nâ€¢ **Pareto Optimization**: Finding optimal trade-offs\n\nWhat performance aspect are you trying to optimize?"

/-- Technical-help branch (src/api/chat.ts line 138). -/
def chatHelpText : String :=
  "I" ++ apos ++ "m Shaurya, and I" ++ apos ++ "m here to help with all aspects of Neural Architecture Search!\n\n**My expertise includes:**\nâ€¢ Search space design and constraints\nâ€¢ Multi-objective optimization strategies\nâ€¢ Architecture evaluation and ranking\nâ€¢ Hardware-aware optimization\nâ€¢ Transfer learning for NAS\nâ€¢ AutoML pipeline setup\n\nWhat specific challenge can I help you solve?"

/-- Vercel/deployment branch (src/api/chat.ts line 147). -/
def chatVercelText : String :=
  "Great! I" ++ apos ++ "m Shaurya, and I can see you" ++ apos ++ "re deploying to Vercel! ðŸš€\n\nYour Neural Architecture Search application is now running on Vercel" ++ apos ++ "s global edge network. This means:\n\nâ€¢ **Fast Performance**: Global CDN for optimal loading\nâ€¢ **Scalability**: Automatic scaling based on demand\nâ€¢ **Reliability**: 99.99% uptime SLA\nâ€¢ **AI Integration**: Perfect for neural network applications\n\nHow can I help you optimize your NAS workflows on this production environment?"

/-- Context-aware default branch (src/api/chat.ts line 153). -/
def chatContextText : String :=
  "That" ++ apos ++ "s an interesting question! As Shaurya, I" ++ apos ++ "m specialized in neural architecture search and would love to help you further. Could you provide more details about what you" ++ apos ++ "re trying to achieve? I can assist with search strategies, architecture analysis, performance optimization, or any other NAS-related topics."

/-- Final default branch (src/api/chat.ts line 156). -/
def chatDefaultText : String :=
  "Hello! I" ++ apos ++ "m Shaurya, your AI assistant built by Shaurya Upadhyay, specialized in Neural Architecture Search. I can help with:\n\nâ€¢ Architecture search configuration\nâ€¢ Model performance analysis\nâ€¢ Search strategy optimization\nâ€¢ Hardware-aware design\nâ€¢ Multi-objective optimization\n\nWhat neural architecture challenge can I help you solve today?"

/-- `generateShauryaResponse` (src/api/chat.ts lines 90–157): keyword dispatch over
the lowercased last user message. -/
def generateShauryaResponse (userInput : String) (messageHistory : List ChatMessage) : String :=
  let input := jsToLower userInput
  if jsIncludes input "hello" || jsIncludes input "hi" || jsIncludes input "hey" then
    chatGreetingText
  else if jsIncludes input "architecture" || jsIncludes input "model" || jsIncludes input "network" then
    chatArchitectureText
  else if jsIncludes input "search" || jsIncludes input "configuration" || jsIncludes input "nas" then
    chatSearchText
  else if jsIncludes input "performance" || jsIncludes input "accuracy" || jsIncludes input "optimization" then
    chatPerformanceText
  else if jsIncludes input "help" || jsIncludes input "how" || jsIncludes input "implement" then
    chatHelpText
  else if jsIncludes input "vercel" || jsIncludes input "deploy" || jsIncludes input "production" then
    chatVercelText
  else if messageHistory.length > 1 then
    chatContextText
  else
    chatDefaultText

/-- Observable outcome of a chat-like handler: HTTP status plus the three
response keys `content`, `text` and `choices[0].message.content`. -/
structure ChatHandlerResult where
  status : ℕ
  content : Option String
  text : Option String
  choicesContent : Option String
deriving DecidableEq

/-- The chat handler (src/api/chat.ts lines 25–88): CORS preflight, method
dispatch, `messages` validation, then the triple-keyed JSON response.
`messages = none` models a body whose `messages` field is absent or not an
array. -/
def chatHandler (method : String) (messages : Option (List ChatMessage)) : ChatHandlerResult :=
  if method = "OPTIONS" then ⟨200, none, none, none⟩
  else if method ≠ "POST" then ⟨405, none, none, none⟩
  else
    match messages with
    | none => ⟨400, none, none, none⟩
    | some msgs =>
      match msgs.getLast? with
      | none => ⟨400, none, none, none⟩
      | some lastMessage =>
        if lastMessage.role ≠ "user" then ⟨400, none, none, none⟩
        else
          let aiResponse := generateShauryaResponse lastMessage.content msgs
          ⟨200, some aiResponse, some aiResponse, some aiResponse⟩

/-! ## src/api/shaurya-ai-enhanced.ts -/

/-- `patterns.architectureOptimization` (src/api/shaurya-ai-enhanced.ts line 104):
the regex is a bare alternation of literals, i.e. a substring test. -/
def patsOptimization : List String :=
  ["optim", "improv", "efficien", "speed", "fast", "better", "enhance"]

/-- `patterns.modelComparison` (line 105). -/
def patsComparison : List String :=
  ["compar", "vs", "versus", "differ", "which", "best", "better"]

/-- `patterns.performanceAnalysis` (line 106). -/
def patsPerformance : List String :=
  ["accura", "loss", "metric", "perform", "evaluat", "test", "valid"]

/-- `patterns.hardwareConstraints` (line 107). -/
def patsHardware : List String :=
  ["mobile", "edge", "gpu", "cpu", "memor", "latenc", "power", "deploy"]

/-- `patterns.searchStrategy` (line 108). -/
def patsSearch : List String :=
  ["search", "nas", "automl", "evolution", "reinforc", "bayesian", "gradient"]

/-- `patterns.architectureDesign` (line 109). -/
def patsDesign : List String :=
  ["layer", "block", "resnet", "efficient", "mobile", "convol", "dense", "transform"]

/-- `patterns.troubleshooting` (line 110). -/
def patsTroubleshooting : List String :=
  ["error", "fail", "problem", "issue", "debug", "fix", "help", "stuck"]

/-- `patterns.datasetQuestions` (line 111). -/
def patsDataset : List String :=
  ["dataset", "data", "imagenet", "cifar", "custom", "train", "augment"]

/-- `regex.test(input)` for one of the alternation-of-literals patterns above. -/
def regexTest (pats : List String) (s : String) : Bool :=
  pats.any (fun p => jsIncludes s p)

/-- The response-type selection of `generateEnhancedShauryaResponse`
(src/api/shaurya-ai-enhanced.ts lines 97–134): lowercase the prompt, then an
if/else-if cascade over the eight patterns, defaulting to "general". -/
def classifyInput (userInput : String) : String :=
  let input := jsToLower userInput
  if regexTest patsOptimization input then "optimization"
  else if regexTest patsComparison input then "comparison"
  else if regexTest patsPerformance input then "performance"
  else if regexTest patsHardware input then "hardware"
  else if regexTest patsSearch input then "search"
  else if regexTest patsDesign input then "design"
  else if regexTest patsTroubleshooting input then "troubleshooting"
  else if regexTest patsDataset input then "dataset"
  else "general"

/-- The eight topic buckets in source order, as the specification describes them:
a fixed ordered list scanned for the first matching pattern. -/
def classificationBuckets : List (String × List String) :=
  [("optimization", patsOptimization),
   ("comparison", patsComparison),
   ("performance", patsPerformance),
   ("hardware", patsHardware),
   ("search", patsSearch),
   ("design", patsDesign),
   ("troubleshooting", patsTroubleshooting),
   ("dataset", patsDataset)]

/-- Modelled from the spec wording of §4.2: "a fixed list of regular expressions
tests the lowercased prompt against topic buckets …; first match wins, default
is general" — the first bucket whose pattern matches, else "general". -/
def classifyFirstMatch (userInput : String) : String :=
  ((classificationBuckets.find? (fun b => regexTest b.2 (jsToLower userInput))).map
    (fun b => b.1)).getD "general"

/-- The enhanced chat handler (src/api/shaurya-ai-enhanced.ts lines 30–90).
The generated reply text (`generateEnhancedShauryaResponse(...)`.text, lines
136–266) is abstracted as the parameter `genText`, since every property claimed
of the handler is independent of the template text; the classification feeding
those templates is modelled concretely by `classifyInput` above. -/
def enhancedHandler (genText : String → List ChatMessage → String)
    (method : String) (messages : Option (List ChatMessage)) : ChatHandlerResult :=
  if method = "OPTIONS" then ⟨200, none, none, none⟩
  else if method ≠ "POST" then ⟨405, none, none, none⟩
  else
    match messages with
    | none => ⟨400, none, none, none⟩
    | some msgs =>
      match msgs.getLast? with
      | none => ⟨400, none, none, none⟩
      | some lastMessage =>
        if lastMessage.role ≠ "user" then ⟨400, none, none, none⟩
        else
          let aiText := genText lastMessage.content msgs
          ⟨200, some aiText, some aiText, some aiText⟩

/-! ## src/api/index.ts (API discovery handler) -/

/-- Outcome of the discovery handler: it either ends the CORS preflight or
serves the capability document; there is no method check. -/
structure IndexResult where
  status : ℕ
  servedDocument : Bool
deriving DecidableEq

/-- The `GET /api` discovery handler (src/api/index.ts lines 3–97): after the
OPTIONS preflight, `res.json({...})` runs for every method, with default HTTP
status 200 — the handler contains no 405 branch. -/
def indexHandler (method : String) : IndexResult :=
  if method = "OPTIONS" then ⟨200, false⟩
  else ⟨200, true⟩

/-! ## src/unnamed/part_011 (POST /api/nas-ai) -/

/-- A client-supplied layer descriptor as read by `evaluateArchitecture`;
every field an architecture author may omit is an `Option`. -/
structure EvalLayer where
  type : String
  filters : Option ℚ := none
  kernel_size : Option ℚ := none
  units : Option ℚ := none
  input_size : Option ℚ := none
  features : Option ℚ := none
  input_shape : Option (List ℚ) := none
deriving DecidableEq

/-- A client-supplied architecture: `architecture.layers || []` reads an
optional `layers` field. -/
structure EvalArchitecture where
  layers : Option (List EvalLayer) := none
deriving DecidableEq

/-- Running totals of the `layers.forEach` loop in `evaluateArchitecture`
(src/unnamed/part_011 lines 165–199). -/
structure EvalAcc where
  parameterCount : ℚ
  flops : ℚ
  estimatedLatency : ℚ
deriving DecidableEq

/-- One pass of the `forEach` body: `prev` is `layers[index-1]` (`none` at
index 0).  In the `conv2d` and `dense` cases the source first updates
`parameterCount` and then adds the *updated* total into `flops`, which this
translation reproduces. -/
def evalLayersLoop : Option EvalLayer → EvalAcc → List EvalLayer → EvalAcc
  | _, acc, [] => acc
  | prev, acc, layer :: rest =>
    let acc' :=
      if layer.type = "conv2d" then
        let filters := jsOrQ layer.filters 32
        let kernelSize := jsOrQ layer.kernel_size 3
        let inputChannels := match prev with
          | none => 3
          | some p => jsOrQ p.filters 32
        let parameterCount := acc.parameterCount + filters * inputChannels * kernelSize * kernelSize
        let flops := acc.flops + parameterCount *
          (jsOrQ (layer.input_shape.bind (fun l => l.get? 1)) 224) *
          (jsOrQ (layer.input_shape.bind (fun l => l.get? 2)) 224)
        ⟨parameterCount, flops, acc.estimatedLatency + filters * 0.001⟩
      else if layer.type = "dense" then
        let units := jsOrQ layer.units 128
        let inputSize := jsOrQ layer.input_size 1024
        let parameterCount := acc.parameterCount + units * inputSize
        ⟨parameterCount, acc.flops + parameterCount, acc.estimatedLatency + units * 0.0001⟩
      else if layer.type = "batch_norm" then
        ⟨acc.parameterCount + (jsOrQ layer.features 32) * 2, acc.flops, acc.estimatedLatency + 0.05⟩
      else if layer.type = "dropout" then
        ⟨acc.parameterCount, acc.flops, acc.estimatedLatency + 0.01⟩
      else acc
    evalLayersLoop (some layer) acc' rest

/-- `Math.round(x * 100) / 100` — two-decimal rounding used throughout
`evaluateArchitecture`. -/
def jsRound2 (q : ℚ) : ℚ := (jsRound (q * 100) : ℚ) / 100

/-- `Math.round(x * 1000) / 1000` — three-decimal rounding for the accuracy. -/
def jsRound3 (q : ℚ) : ℚ := (jsRound (q * 1000) : ℚ) / 1000

/-- The `metrics` object of a successful evaluation (src/unnamed/part_011
lines 233–240). -/
structure NASMetrics where
  estimatedAccuracy : ℚ
  estimatedLatency : ℚ
  parameterCount : ℚ
  flops : ℚ
  modelSize : ℚ
  efficiencyScore : ℚ
deriving DecidableEq

/-- The response of the `evaluate` operation. -/
structure NASEvalResponse where
  success : Bool
  error : Option String := none
  score : Option ℚ := none
  metrics : Option NASMetrics := none
  suggestions : List String := []
deriving DecidableEq

/-- `evaluateArchitecture` (src/unnamed/part_011 lines 151–249).
`architecture = none` models a missing/falsy `architecture` argument; the
`dataset` default parameter `"imagenet"` is applied by the caller.  One
deliberate modelling note: for an architecture with zero accumulated
parameters and latency the source divides by zero, producing the JS value
`Infinity` for `efficiencyScore`; rational division by zero yields 0 instead.
No claim under verification reads `efficiencyScore`. -/
def evaluateArchitecture (architecture : Option EvalArchitecture) (dataset : String) :
    NASEvalResponse :=
  match architecture with
  | none => { success := false, error := some "Architecture specification required" }
  | some arch =>
    let layers := arch.layers.getD []
    let acc := evalLayersLoop none ⟨0, 0, 0⟩ layers
    let baseAccuracy : ℚ := 0.7
    let baseAccuracy := if dataset = "cifar10" then 0.85 else baseAccuracy
    let baseAccuracy := if dataset = "cifar100" then 0.6 else baseAccuracy
    let baseAccuracy := if dataset = "imagenet" then 0.7 else baseAccuracy
    let complexityFactor := (min (acc.parameterCount / 1000000) 10) / 10
    let estimatedAccuracy := min (baseAccuracy + complexityFactor * 0.2) 0.98
    let efficiencyScore := (estimatedAccuracy * 100) / (acc.parameterCount / 1000000 + acc.estimatedLatency)
    let suggestions :=
      (if acc.parameterCount > 50000000 then
        ["Consider using depth-wise separable convolutions to reduce parameters"] else []) ++
      (if acc.estimatedLatency > 100 then
        ["Add batch normalization to improve training speed"] else []) ++
      (if layers.length > 100 then
        ["Consider using residual connections for deep networks"] else []) ++
      (if efficiencyScore < 50 then
        ["Architecture may benefit from knowledge distillation"] else [])
    { success := true,
      score := some (jsRound2 efficiencyScore),
      metrics := some
        { estimatedAccuracy := jsRound3 estimatedAccuracy,
          estimatedLatency := jsRound2 acc.estimatedLatency,
          parameterCount := acc.parameterCount,
          flops := acc.flops,
          modelSize := jsRound2 (acc.parameterCount * 4 / (1024 * 1024)),
          efficiencyScore := jsRound2 efficiencyScore },
      suggestions := suggestions }

/-- Outcome of the NAS AI handler: HTTP status, the `evaluate` payload when that
operation ran, and the error message otherwise. -/
structure NasHttpResult where
  status : ℕ
  payload : Option NASEvalResponse := none
  errorMsg : Option String := none
deriving DecidableEq

/-- The NAS AI handler (src/unnamed/part_011 lines 79–149): preflight, POST-only
dispatch, `operation` presence check, then the operation switch.  The
`optimize`/`suggest`/`compare` branches (lines 119–131) also answer HTTP 200;
their payloads are distinct response shapes not touched by any claim and are
left out of the observable result. -/
def nasAiHandler (method : String) (operation : Option String)
    (architecture : Option EvalArchitecture) (dataset : Option String) : NasHttpResult :=
  if method = "OPTIONS" then { status := 200 }
  else if method ≠ "POST" then { status := 405, errorMsg := some "Method not allowed" }
  else
    match operation with
    | none => { status := 400, errorMsg := some "Operation is required" }
    | some op =>
      if op = "" then { status := 400, errorMsg := some "Operation is required" }
      else if op = "evaluate" then
        { status := 200, payload := some (evaluateArchitecture architecture (dataset.getD "imagenet")) }
      else if op = "optimize" || op = "suggest" || op = "compare" then
        { status := 200 }
      else { status := 400, errorMsg := some "Invalid operation" }

/-! ## src/unnamed/part_010 (the /api/optimization handler) -/

/-- A randomly drawn layer of a fabricated candidate architecture
(`generateRandomLayers`, src/unnamed/part_010 lines 362–399). -/
structure OptLayer where
  type : String
  filters : Option ℚ := none
  kernel_size : Option ℚ := none
  activation : Option String := none
  units : Option ℚ := none
  rate : Option ℚ := none
  momentum : Option ℚ := none
deriving DecidableEq

/-- A candidate architecture in the fabricated population
(`generateInitialPopulation`, lines 334–360). -/
structure OptCandidate where
  id : String
  layers : List OptLayer
  optimizer : String
  learningRate : ℚ
  batchSize : ℚ
  score : ℚ
  estimatedParams : ℤ
  estimatedLatency : ℚ
  confidence : ℚ
deriving DecidableEq

/-- The `searchSpace` request field; a missing sub-field falls back to the
hard-coded default list (note: JS `||` keeps a *present but empty* array, since
`[]` is truthy, which `Option.getD` reproduces). -/
structure SearchSpace where
  layers : Option (List String) := none
  activations : Option (List String) := none
  optimizers : Option (List String) := none
  learningRates : Option (List ℚ) := none
  batchSizes : Option (List ℚ) := none
deriving DecidableEq

/-- The `budget` request field.  `maxEvaluations` and `parallel` are counts;
`maxTime` is in hours. -/
structure OptBudget where
  maxEvaluations : ℕ
  maxTime : ℚ
  parallel : ℕ
deriving DecidableEq

/-- The `constraints` request field (present or not; never read by the
initializers). -/
structure OptConstraints where
  maxParams : Option ℚ := none
  maxLatency : Option ℚ := none
  minAccuracy : Option ℚ := none
  maxMemory : Option ℚ := none
  energyBudget : Option ℚ := none
deriving DecidableEq

/-- One weighted objective of the `objectives` request field. -/
structure ObjectiveTerm where
  weight : ℚ
  target : Option ℚ := none
deriving DecidableEq

/-- The `objectives` request field (only its presence is ever checked). -/
structure OptObjectives where
  accuracy : Option ObjectiveTerm := none
  latency : Option ObjectiveTerm := none
  params : Option ObjectiveTerm := none
  energy : Option ObjectiveTerm := none
deriving DecidableEq

/-- JS `array[Math.floor(r * array.length)]` for one `Math.random()` draw `r`.
For `r ∈ [0,1)` and a non-empty list the index is always in range; an empty
list would give JS `undefined`, represented by the caller-supplied default. -/
def jsRandomChoice {α : Type} (r : ℚ) (l : List α) (dflt : α) : α :=
  l.getD (jsFloor (r * l.length)).toNat dflt

/-- Base-36 digit characters, for `Number.prototype.toString(36)`. -/
def base36Digit (n : ℕ) : Char :=
  "0123456789abcdefghijklmnopqrstuvwxyz".toList.getD n (Char.ofNat 48)

/-- Fractional base-36 digits of `r`, starting at digit position `i`. -/
def toBase36FracAux (r : ℚ) : ℕ → ℕ → List Char
  | 0, _ => []
  | n + 1, i => base36Digit ((jsFloor (r * 36 ^ (i + 1))).toNat % 36) :: toBase36FracAux r n (i + 1)

/-- `r.toString(36).substr(2, n)` for `r ∈ [0,1)`: the first `n` fractional
base-36 digits (JS would stop early when the expansion terminates; the ids this
feeds are never compared by any claim). -/
def toBase36Frac (r : ℚ) (n : ℕ) : String := ⟨toBase36FracAux r n 0⟩

/-- The per-layer body of `generateRandomLayers` (lines 369–396), iterated
`numLayers` times; `k` indexes the `Math.random()` stream and every draw
advances it, in source evaluation order. -/
def genRandomLayersAux (rng : ℕ → ℚ) (avail : List String) : ℕ → ℕ → List OptLayer × ℕ
  | 0, k => ([], k)
  | n + 1, k =>
    let layerType := jsRandomChoice (rng k) avail ""
    let (layer, k') :=
      if layerType = "conv2d" then
        ({ type := layerType,
           filters := some (jsRandomChoice (rng (k + 1)) [16, 32, 64, 128, 256] 0),
           kernel_size := some (jsRandomChoice (rng (k + 2)) [1, 3, 5, 7] 0),
           activation := some (jsRandomChoice (rng (k + 3)) ["relu", "swish", "gelu"] "") },
         k + 4)
      else if layerType = "depthwise_conv" then
        ({ type := layerType,
           kernel_size := some (jsRandomChoice (rng (k + 1)) [3, 5, 7] 0),
           activation := some (jsRandomChoice (rng (k + 2)) ["relu", "swish"] "") },
         k + 3)
      else if layerType = "dense" then
        ({ type := layerType,
           units := some (jsRandomChoice (rng (k + 1)) [64, 128, 256, 512, 1024] 0),
           activation := some (jsRandomChoice (rng (k + 2)) ["relu", "swish", "gelu"] "") },
         k + 3)
      else if layerType = "dropout" then
        ({ type := layerType, rate := some (rng (k + 1) * 0.5 + 0.1) }, k + 2)
      else if layerType = "batch_norm" then
        ({ type := layerType, momentum := some (rng (k + 1) * 0.1 + 0.9) }, k + 2)
      else ({ type := layerType }, k + 1)
    let (rest, k₂) := genRandomLayersAux rng avail n k'
    (layer :: rest, k₂)

/-- `generateRandomLayers` (lines 362–399): 5–20 layers drawn from the search
space (or the default layer-type list). -/
def generateRandomLayers (rng : ℕ → ℚ) (space : SearchSpace) (k : ℕ) : List OptLayer × ℕ :=
  let numLayers := (jsFloor (rng k * 15)).toNat + 5
  let avail := space.layers.getD
    ["conv2d", "depthwise_conv", "dense", "batch_norm", "dropout", "pooling"]
  genRandomLayersAux rng avail numLayers (k + 1)

/-- The candidate-fabrication loop body of `generateInitialPopulation`
(lines 343–357), producing `n` fresh candidates; draws follow the object
literal's evaluation order. -/
def genCandidatesAux (rng : ℕ → ℚ) (space : SearchSpace) (now : ℕ) :
    ℕ → ℕ → List OptCandidate × ℕ
  | 0, k => ([], k)
  | n + 1, k =>
    let id := "arch_" ++ toString now ++ "_" ++ toBase36Frac (rng k) 6
    let (layers, k₁) := generateRandomLayers rng space (k + 1)
    let optimizer := jsRandomChoice (rng k₁) (space.optimizers.getD ["adam", "sgd", "rmsprop"]) ""
    let learningRate := jsRandomChoice (rng (k₁ + 1)) (space.learningRates.getD [0.001, 0.01, 0.1]) 0
    let batchSize := jsRandomChoice (rng (k₁ + 2)) (space.batchSizes.getD [16, 32, 64, 128]) 0
    let cand : OptCandidate :=
      { id := id, layers := layers, optimizer := optimizer,
        learningRate := learningRate, batchSize := batchSize,
        score := rng (k₁ + 3) * 0.3 + 0.6,
        estimatedParams := jsFloor (rng (k₁ + 4) * 20000000) + 1000000,
        estimatedLatency := rng (k₁ + 5) * 50 + 10,
        confidence := 0.5 }
    let (rest, k₂) := genCandidatesAux rng space now n (k₁ + 6)
    (cand :: rest, k₂)

/-- JS `population.sort((a, b) => b.score - a.score)`: a stable sort into
non-increasing score order, modelled by stable insertion sort. -/
def jsSortByScoreDesc (l : List OptCandidate) : List OptCandidate :=
  l.insertionSort (fun a b => b.score ≤ a.score)

/-- `generateInitialPopulation` (lines 334–360): up to `⌊size/2⌋` seed
candidates, random candidates until the population reaches `size`, then the
descending sort by score. -/
def generateInitialPopulation (size : ℕ) (space : SearchSpace)
    (seeds : Option (List OptCandidate)) (now : ℕ) (rng : ℕ → ℚ) (k : ℕ) :
    List OptCandidate × ℕ :=
  let seeded := match seeds with
    | some s => s.take (size / 2)
    | none => []
  let generated := (genCandidatesAux rng space now (size - seeded.length) k).1
  let k' := (genCandidatesAux rng space now (size - seeded.length) k).2
  (jsSortByScoreDesc (seeded ++ generated), k')

/-- The `progress` block of an optimization response. -/
structure OptProgress where
  evaluations : ℕ
  bestScore : ℚ
  convergence : ℚ
  timeElapsed : ℚ
  estimatedRemaining : ℚ
deriving DecidableEq

/-- The `OptimizationResponse` payload (src/unnamed/part_010 lines 33–48). -/
structure OptResponse where
  success : Bool
  algorithm : String
  searchId : String
  status : String
  progress : Option OptProgress := none
  candidates : Option (List OptCandidate) := none
  insights : List String := []
  error : Option String := none
deriving DecidableEq

/-- `initializeEvolutionarySearch` (lines 175–208).  `bestScore` is
`currentBest?.[0]?.score || 0`; a missing seed list or empty seed list gives 0,
and a present score of 0 also gives 0, so `Option.getD 0` is exact.
JS `Math.floor(maxEvaluations / populationSize)` is `Infinity` when
`populationSize` is 0; `generations` only feeds an insight string, where ℕ
division yields 0 instead. -/
def initializeEvolutionarySearch (searchId : String) (space : SearchSpace)
    (constraints : Option OptConstraints) (objectives : OptObjectives)
    (budget : OptBudget) (currentBest : Option (List OptCandidate))
    (now : ℕ) (rng : ℕ → ℚ) (k : ℕ) : OptResponse :=
  let populationSize := min (budget.parallel * 4) 50
  let maxEvaluations := budget.maxEvaluations
  let generations := maxEvaluations / populationSize
  let candidates := (generateInitialPopulation populationSize space currentBest now rng k).1
  { success := true, algorithm := "evolutionary", searchId := searchId, status := "initialized",
    progress := some
      { evaluations := 0,
        bestScore := ((currentBest.bind List.head?).map (fun c => c.score)).getD 0,
        convergence := 0, timeElapsed := 0, estimatedRemaining := budget.maxTime },
    candidates := some (candidates.take 5),
    insights :=
      [s!"Initialized evolutionary search with population size {populationSize}",
       s!"Planning {generations} generations with {maxEvaluations} total evaluations",
       "Using tournament selection and uniform crossover",
       "Applying adaptive mutation rates based on convergence"] }

/-- `initializeBayesianOptimization` (lines 211–240): the full initial sample
population is returned as `candidates`, with no slicing. -/
def initializeBayesianOptimization (searchId : String) (space : SearchSpace)
    (constraints : Option OptConstraints) (objectives : OptObjectives)
    (budget : OptBudget) (now : ℕ) (rng : ℕ → ℚ) (k : ℕ) : OptResponse :=
  let initialSamples := min (budget.parallel * 2) 20
  { success := true, algorithm := "bayesian", searchId := searchId, status := "initialized",
    progress := some
      { evaluations := 0, bestScore := 0, convergence := 0, timeElapsed := 0,
        estimatedRemaining := budget.maxTime },
    candidates := some (generateInitialPopulation initialSamples space none now rng k).1,
    insights :=
      [s!"Initialized Bayesian optimization with {initialSamples} initial samples",
       "Using Gaussian Process surrogate model",
       "Applying Expected Improvement acquisition function",
       "Balancing exploration vs exploitation automatically"] }

/-- `initializeGradientBasedSearch` (lines 243–270). -/
def initializeGradientBasedSearch (searchId : String) (space : SearchSpace)
    (constraints : Option OptConstraints) (objectives : OptObjectives)
    (budget : OptBudget) (now : ℕ) (rng : ℕ → ℚ) (k : ℕ) : OptResponse :=
  { success := true, algorithm := "gradient", searchId := searchId, status := "initialized",
    progress := some
      { evaluations := 0, bestScore := 0, convergence := 0, timeElapsed := 0,
        estimatedRemaining := budget.maxTime * 0.3 },
    candidates := some (generateInitialPopulation budget.parallel space none now rng k).1,
    insights :=
      ["Initialized DARTS-style differentiable architecture search",
       "Using continuous relaxation of discrete architecture choices",
       "Applying progressive shrinking for architecture selection",
       "Memory efficient implementation with gradient checkpointing"] }

/-- `initializeReinforcementLearning` (lines 273–300): an empty candidate
list. -/
def initializeReinforcementLearning (searchId : String) (space : SearchSpace)
    (constraints : Option OptConstraints) (objectives : OptObjectives)
    (budget : OptBudget) (now : ℕ) (rng : ℕ → ℚ) (k : ℕ) : OptResponse :=
  { success := true, algorithm := "reinforcement", searchId := searchId, status := "initialized",
    progress := some
      { evaluations := 0, bestScore := 0, convergence := 0, timeElapsed := 0,
        estimatedRemaining := budget.maxTime },
    candidates := some [],
    insights :=
      ["Initialized reinforcement learning controller",
       "Training agent to generate high-performance architectures",
       "Using accuracy as reward signal with efficiency penalties",
       "Implementing progressive training curriculum"] }

/-- `initializeRandomSearch` (lines 303–332). -/
def initializeRandomSearch (searchId : String) (space : SearchSpace)
    (constraints : Option OptConstraints) (objectives : OptObjectives)
    (budget : OptBudget) (now : ℕ) (rng : ℕ → ℚ) (k : ℕ) : OptResponse :=
  let candidates := (generateInitialPopulation (budget.parallel * 2) space none now rng k).1
  let generatedCount := candidates.length
  { success := true, algorithm := "random", searchId := searchId, status := "initialized",
    progress := some
      { evaluations := 0, bestScore := 0, convergence := 0, timeElapsed := 0,
        estimatedRemaining := budget.maxTime * 0.5 },
    candidates := some (candidates.take 5),
    insights :=
      [s!"Generated {generatedCount} random architectures for evaluation",
       "Random search provides strong baseline for comparison",
       "Efficient parallelization across available resources",
       "No convergence assumptions - explores full search space"] }

/-- The optimization request body as destructured by `handleStartOptimization`
(lines 86–101); a `none` field models an absent request field. -/
structure OptRequestBody where
  algorithm : Option String := none
  searchSpace : Option SearchSpace := none
  constraints : Option OptConstraints := none
  objectives : Option OptObjectives := none
  budget : Option OptBudget := none
  currentBest : Option (List OptCandidate) := none

/-- Observable outcome of the optimization handler: HTTP status, the JSON
payload on success, and the error message on a 4xx/405 path. -/
structure OptHttpResult where
  status : ℕ
  payload : Option OptResponse := none
  errorMsg : Option String := none

/-- `handleStartOptimization` (lines 86–133): presence validation (JS `!x`
also rejects an empty algorithm string), searchId fabrication, then the
algorithm switch. -/
def handleStartOptimization (body : OptRequestBody) (now : ℕ) (rng : ℕ → ℚ) : OptHttpResult :=
  match body.algorithm, body.searchSpace, body.objectives, body.budget with
  | some algorithm, some searchSpace, some objectives, some budget =>
    if algorithm = "" then
      { status := 400,
        errorMsg := some "Missing required parameters: algorithm, searchSpace, objectives, budget" }
    else
      let searchId := "nas_" ++ algorithm ++ "_" ++ toString now ++ "_" ++ toBase36Frac (rng 0) 9
      if algorithm = "evolutionary" then
        { status := 200, payload := some (initializeEvolutionarySearch searchId searchSpace
            body.constraints objectives budget body.currentBest now rng 1) }
      else if algorithm = "bayesian" then
        { status := 200, payload := some (initializeBayesianOptimization searchId searchSpace
            body.constraints objectives budget now rng 1) }
      else if algorithm = "gradient" then
        { status := 200, payload := some (initializeGradientBasedSearch searchId searchSpace
            body.constraints objectives budget now rng 1) }
      else if algorithm = "reinforcement" then
        { status := 200, payload := some (initializeReinforcementLearning searchId searchSpace
            body.constraints objectives budget now rng 1) }
      else if algorithm = "random" then
        { status := 200, payload := some (initializeRandomSearch searchId searchSpace
            body.constraints objectives budget now rng 1) }
      else
        { status := 400,
          errorMsg := some "Unsupported algorithm. Supported: evolutionary, bayesian, gradient, reinforcement, random" }
  | _, _, _, _ =>
    { status := 400,
      errorMsg := some "Missing required parameters: algorithm, searchSpace, objectives, budget" }

/-- `(x).toFixed(1)` for the non-negative percentages the status insights
interpolate. -/
def toFixed1 (q : ℚ) : String :=
  let n := jsRound (q * 10)
  toString (n / 10) ++ "." ++ toString ((n % 10).natAbs)

/-- `getOptimizationStatus` (lines 405–431): fabricated progress plus a fresh
5-candidate population drawn from an empty search space. -/
def getOptimizationStatus (searchId : String) (now : ℕ) (rng : ℕ → ℚ) : OptResponse :=
  let elapsed := rng 0 * 2
  let totalEvaluations := (jsFloor (rng 1 * 500)).toNat + 100
  let bestScore := rng 2 * 0.15 + 0.8
  { success := true, algorithm := "evolutionary", searchId := searchId, status := "running",
    progress := some
      { evaluations := totalEvaluations, bestScore := bestScore,
        convergence := min ((totalEvaluations : ℚ) / 1000) 0.95,
        timeElapsed := elapsed, estimatedRemaining := max 0 (4 - elapsed) },
    candidates := some (generateInitialPopulation 5 {} none now rng 3).1,
    insights :=
      [s!"Found {totalEvaluations} architectures so far",
       "Best architecture achieves " ++ toFixed1 (bestScore * 100) ++ "% efficiency score",
       "Search is converging towards optimal solutions",
       "Consider expanding search space if plateau is reached"] }

/-- `updateOptimization` (lines 433–453). -/
def updateOptimization (searchId action : String) : OptResponse :=
  if (["pause", "resume", "adjust_budget", "expand_search_space"] : List String).contains action then
    { success := true, algorithm := "evolutionary", searchId := searchId, status := "running",
      insights := ["Successfully applied action: " ++ action,
        "Search parameters updated", "Continuing optimization with new settings"] }
  else
    { success := false, algorithm := "", searchId := searchId, status := "failed",
      error := some (s!"Invalid action: {action}. Supported actions: pause, resume, adjust_budget, expand_search_space") }

/-- `stopOptimization` (lines 455–475). -/
def stopOptimization (searchId : String) : OptResponse :=
  { success := true, algorithm := "evolutionary", searchId := searchId, status := "completed",
    progress := some
      { evaluations := 1000, bestScore := 0.89, convergence := 0.95,
        timeElapsed := 3.5, estimatedRemaining := 0 },
    insights :=
      ["Optimization stopped successfully", "Final results saved to database",
       "Best architectures ready for deployment", "Performance analysis available in dashboard"] }

/-- `handleGetOptimizationStatus` (lines 135–146); a missing or empty
`searchId` query parameter is falsy. -/
def handleGetOptimizationStatus (searchId : Option String) (now : ℕ) (rng : ℕ → ℚ) :
    OptHttpResult :=
  match searchId with
  | none => { status := 400, errorMsg := some "Search ID is required" }
  | some sid =>
    if sid = "" then { status := 400, errorMsg := some "Search ID is required" }
    else { status := 200, payload := some (getOptimizationStatus sid now rng) }

/-- `handleUpdateOptimization` (lines 148–160). -/
def handleUpdateOptimization (searchId action : Option String) : OptHttpResult :=
  match searchId, action with
  | some sid, some act =>
    if sid = "" ∨ act = "" then { status := 400, errorMsg := some "Search ID and action are required" }
    else { status := 200, payload := some (updateOptimization sid act) }
  | _, _ => { status := 400, errorMsg := some "Search ID and action are required" }

/-- `handleStopOptimization` (lines 162–172). -/
def handleStopOptimization (searchId : Option String) : OptHttpResult :=
  match searchId with
  | none => { status := 400, errorMsg := some "Search ID is required" }
  | some sid =>
    if sid = "" then { status := 400, errorMsg := some "Search ID is required" }
    else { status := 200, payload := some (stopOptimization sid) }

/-- The optimization handler's method dispatch (lines 50–84): OPTIONS
preflight, then the POST/GET/PUT/DELETE switch with a 405 default. -/
def optimizationHandler (method : String) (searchId : Option String)
    (body : OptRequestBody) (action : Option String) (now : ℕ) (rng : ℕ → ℚ) :
    OptHttpResult :=
  if method = "OPTIONS" then { status := 200 }
  else if method = "POST" then handleStartOptimization body now rng
  else if method = "GET" then handleGetOptimizationStatus searchId now rng
  else if method = "PUT" then handleUpdateOptimization searchId action
  else if method = "DELETE" then handleStopOptimization searchId
  else { status := 405, errorMsg := some "Method not allowed" }

/-! ## src/client/lib/supabase.ts — the data-access façade

Two complementary models.  First, the error-propagation skeleton: every façade
method ends in `if (error) throw error; return data;` except `getGlobalStats`,
which reads `result.count || 0` and has no error check at all.  The underlying
supabase query is abstracted as its resolved `{ data, error }` (or
`{ count, error }`) result. -/

/-- The resolved result of one supabase query: `{ data, error }`. -/
structure QueryResult (α : Type) where
  data : Option α := none
  error : Option String := none

/-- The resolved result of one `head: true, count: "exact"` query:
`{ count, error }`. -/
structure CountResult where
  count : Option ℤ := none
  error : Option String := none

/-- The `if (error) throw error; return data;` tail shared by every façade
method except `getGlobalStats`. -/
def throwOnError {α : Type} (r : QueryResult α) : Except String (Option α) :=
  match r.error with
  | some e => Except.error e
  | none => Except.ok r.data

/-- Error behaviour of `NeuralArchSearchDB.createExperiment` (src/client/lib/supabase.ts
lines 155–169). -/
def facadeCreateExperiment {α : Type} (r : QueryResult α) : Except String (Option α) :=
  throwOnError r

/-- Error behaviour of `NeuralArchSearchDB.getExperiments` (lines 171–179). -/
def facadeGetExperiments {α : Type} (r : QueryResult α) : Except String (Option α) :=
  throwOnError r

/-- Error behaviour of `NeuralArchSearchDB.getExperiment` (lines 181–190). -/
def facadeGetExperiment {α : Type} (r : QueryResult α) : Except String (Option α) :=
  throwOnError r

/-- Error behaviour of `NeuralArchSearchDB.updateExperiment` (lines 192–208). -/
def facadeUpdateExperiment {α : Type} (r : QueryResult α) : Except String (Option α) :=
  throwOnError r

/-- Error behaviour of `NeuralArchSearchDB.createArchitecture` (lines 211–220). -/
def facadeCreateArchitecture {α : Type} (r : QueryResult α) : Except String (Option α) :=
  throwOnError r

/-- Error behaviour of `NeuralArchSearchDB.recordProgress` (lines 264–273). -/
def facadeRecordProgress {α : Type} (r : QueryResult α) : Except String (Option α) :=
  throwOnError r

/-- Error behaviour of `NeuralArchSearchDB.saveConversation` (lines 287–301). -/
def facadeSaveConversation {α : Type} (r : QueryResult α) : Except String (Option α) :=
  throwOnError r

/-- The record `getGlobalStats` resolves with. -/
structure GlobalStats where
  total_experiments : ℤ
  total_architectures : ℤ
  total_ai_conversations : ℤ
deriving DecidableEq

/-- `NeuralArchSearchDB.getGlobalStats` (lines 326–345): three concurrent count
queries; each `error` field is never inspected, and each count defaults to 0
via `|| 0`.  The function has no throwing path. -/
def getGlobalStats (experimentsResult architecturesResult conversationsResult : CountResult) :
    GlobalStats :=
  { total_experiments := jsOrZ experimentsResult.count,
    total_architectures := jsOrZ architecturesResult.count,
    total_ai_conversations := jsOrZ conversationsResult.count }

/-! Second, a state-level model of the experiment round trip.  A row is a
JS-object-like association list (first binding wins on lookup), which makes the
object spread `{...experiment, created_by: "Shaurya Upadhyay"}` exact. -/

/-- A JSON-ish field value stored in a row. -/
inductive DBValue where
  | vstr (s : String)
  | vnum (q : ℚ)
  | vbool (b : Bool)
deriving DecidableEq

/-- A row (or an insert payload): a JS-object-like association list. -/
def DBRow : Type := List (String × DBValue)

instance : DecidableEq DBRow := fun a b => List.hasDecEq a b

/-- `obj[k]`: first binding wins. -/
def getField (row : DBRow) (k : String) : Option DBValue :=
  (row.find? (fun p => p.1 == k)).map (fun p => p.2)

/-- `{...obj, k: v}`: every original binding except `k`, with `k` bound to `v`.
(In JS the overridden key keeps its original position; only lookups are
observable here, so the binding is re-inserted at the end.) -/
def setField : DBRow → String → DBValue → DBRow
  | [], k, v => [(k, v)]
  | p :: rest, k, v => if p.1 = k then setField rest k v else p :: setField rest k v

/-- State-level `NeuralArchSearchDB.createExperiment` (src/client/lib/supabase.ts
lines 155–169) over a table modelled as a list of rows: the payload is spread
with `created_by` forced to `"Shaurya Upadhyay"` and inserted; the database
supplies the schema default `genId` for a missing `id`
(src/unnamed/part_000 line 54: `id UUID DEFAULT uuid_generate_v4()`), rejects a
duplicate id, and `.select().single()` returns the inserted row. -/
def createExperiment (db : List DBRow) (experiment : DBRow) (genId : String) :
    Except String (DBRow × List DBRow) :=
  let inserted := setField experiment "created_by" (DBValue.vstr "Shaurya Upadhyay")
  let inserted := if (getField inserted "id").isSome then inserted
    else setField inserted "id" (DBValue.vstr genId)
  if db.any (fun r => getField r "id" == getField inserted "id") then
    Except.error "duplicate key value violates unique constraint"
  else
    Except.ok (inserted, db ++ [inserted])

/-- State-level `NeuralArchSearchDB.getExperiment` (lines 181–190):
`.select("*").eq("id", id).single()` — exactly one matching row, else the
PostgREST single-object error. -/
def getExperiment (db : List DBRow) (id : String) : Except String DBRow :=
  match db.filter (fun r => getField r "id" == some (DBValue.vstr id)) with
  | [r] => Except.ok r
  | _ => Except.error "JSON object requested, multiple (or no) rows returned"

/-! ## Concrete instances used by the verification theorems below -/

/-- A fixed generated-text function used to instantiate the enhanced handler,
whose response shape is independent of the generator. -/
def echoGen : String → List ChatMessage → String := fun input _ => input

/-- The constant-zero `Math.random()` stream. -/
def rngZero : ℕ → ℚ := fun _ => 0

/-- A concrete experiment payload that tries to set its own `created_by`. -/
def c1Payload : DBRow :=
  [("name", DBValue.vstr "mobile-net-search"), ("created_by", DBValue.vstr "someone else")]

/-- The row `createExperiment` inserts for `c1Payload` with generated id
`"exp-1"`. -/
def c1Row : DBRow :=
  [("name", DBValue.vstr "mobile-net-search"),
   ("created_by", DBValue.vstr "Shaurya Upadhyay"),
   ("id", DBValue.vstr "exp-1")]

/-- A bayesian optimization start request with `budget.parallel = 1`. -/
def c2Body : OptRequestBody :=
  { algorithm := some "bayesian", searchSpace := some {}, objectives := some {},
    budget := some ⟨10, 1, 1⟩ }

/-- A reinforcement-learning optimization start request with
`budget.parallel = 1`. -/
def reinfBody : OptRequestBody :=
  { algorithm := some "reinforcement", searchSpace := some {}, objectives := some {},
    budget := some ⟨10, 1, 1⟩ }

instance optCandidateScoreRelTotal : IsTotal OptCandidate (fun a b => b.score ≤ a.score) :=
  ⟨fun a b => le_total b.score a.score⟩

instance optCandidateScoreRelTrans : IsTrans OptCandidate (fun a b => b.score ≤ a.score) :=
  ⟨fun _ _ _ h1 h2 => le_trans h2 h1⟩

/-! ## Support lemmas -/

/-- Looking up the key just written by a spread override. -/
theorem getField_setField_same (row : DBRow) (k : String) (v : DBValue) :
    getField (setField row k v) k = some v := by
  induction row with
  | nil => simp [getField, setField, List.find?]
  | cons p rest ih =>
    by_cases hp : p.1 = k
    · simpa [setField, hp] using ih
    · simpa [getField, setField, hp, List.find?] using ih

/-- A spread override leaves every other key's lookup unchanged. -/
theorem getField_setField_ne (row : DBRow) (k k' : String) (v : DBValue) (h : k' ≠ k) :
    getField (setField row k v) k' = getField row k' := by
  induction row with
  | nil =>
    have hk : (k == k') = false := beq_eq_false_iff_ne.mpr (Ne.symm h)
    simp [getField, setField, List.find?, hk]
  | cons p rest ih =>
    by_cases hp : p.1 = k
    · have hpk' : (p.1 == k') = false := by
        rw [beq_eq_false_iff_ne, hp]
        exact Ne.symm h
      rw [setField, if_pos hp, ih]
      unfold getField
      rw [List.find?_cons_of_neg]
      simp [hpk']
    · cases hbeq : (p.1 == k') with
      | true =>
        unfold getField
        rw [setField, if_neg hp, List.find?_cons_of_pos, List.find?_cons_of_pos] <;> simp [hbeq]
      | false =>
        unfold getField
        rw [setField, if_neg hp, List.find?_cons_of_neg, List.find?_cons_of_neg]
        · exact ih
        · simp [hbeq]
        · simp [hbeq]

/-- `.single()` after inserting a row with an id fresh for the table returns
exactly that row. -/
theorem getExperiment_append_fresh (db : List DBRow) (row : DBRow) (i : String)
    (hrow : getField row "id" = some (DBValue.vstr i))
    (hfresh : ∀ r ∈ db, getField r "id" ≠ some (DBValue.vstr i)) :
    getExperiment (db ++ [row]) i = Except.ok row := by
  unfold getExperiment
  have hdb : db.filter (fun r => getField r "id" == some (DBValue.vstr i)) = [] := by
    rw [List.filter_eq_nil]
    intro a ha
    simp [hfresh a ha]
  rw [List.filter_append, hdb]
  simp [hrow]

/-- The candidate-fabrication loop produces exactly `n` candidates. -/
theorem genCandidatesAux_length (rng : ℕ → ℚ) (space : SearchSpace) (now : ℕ) :
    ∀ n k, ((genCandidatesAux rng space now n k).1).length = n := by
  intro n
  induction n with
  | zero => intro k; rfl
  | succ m ih =>
    intro k
    rcases hgen : generateRandomLayers rng space (k + 1) with ⟨layers, k₁⟩
    rcases hrec : genCandidatesAux rng space now m (k₁ + 6) with ⟨rest, k₂⟩
    have hlen := ih (k₁ + 6)
    rw [hrec] at hlen
    simp [genCandidatesAux, hgen, hrec, hlen]

/-- `generateInitialPopulation` always returns exactly `size` candidates:
seeds fill at most half and random candidates fill the remainder. -/
theorem generateInitialPopulation_length (size : ℕ) (space : SearchSpace)
    (seeds : Option (List OptCandidate)) (now : ℕ) (rng : ℕ → ℚ) (k : ℕ) :
    ((generateInitialPopulation size space seeds now rng k).1).length = size := by
  unfold generateInitialPopulation
  cases seeds with
  | none =>
    simp [jsSortByScoreDesc, List.length_insertionSort, genCandidatesAux_length]
  | some s =>
    have h1 : (s.take (size / 2)).length ≤ size / 2 := by
      rw [List.length_take]
      exact Nat.min_le_left _ _
    simp [jsSortByScoreDesc, List.length_insertionSort, genCandidatesAux_length]
    omega

/-- The comparator sort yields a non-increasing score sequence. -/
theorem jsSortByScoreDesc_sorted (l : List OptCandidate) :
    (jsSortByScoreDesc l).Sorted (fun a b => b.score ≤ a.score) :=
  List.sorted_insertionSort _ l

/-- Every fabricated population is sorted by non-increasing score. -/
theorem generateInitialPopulation_sorted (size : ℕ) (space : SearchSpace)
    (seeds : Option (List OptCandidate)) (now : ℕ) (rng : ℕ → ℚ) (k : ℕ) :
    ((generateInitialPopulation size space seeds now rng k).1).Sorted
      (fun a b => b.score ≤ a.score) := by
  unfold generateInitialPopulation
  cases seeds with
  | none => exact jsSortByScoreDesc_sorted _
  | some s => exact jsSortByScoreDesc_sorted _

/-- In a list sorted by non-increasing score the head has the maximal score. -/
theorem sorted_desc_head_max (l : List OptCandidate)
    (h : l.Sorted (fun a b => b.score ≤ a.score)) :
    ∀ c0 cs, l = c0 :: cs → ∀ c ∈ l, c.score ≤ c0.score := by
  rintro c0 cs rfl c hc
  rcases List.mem_cons.mp hc with rfl | hc
  · exact le_refl _
  · exact (List.pairwise_cons.mp h).1 c hc

/-! ## Claim theorems -/

/-- C1: for every valid experiment payload, `createExperiment` followed by
`getExperiment` on the returned row's id yields that row back; its fields equal
the supplied payload fields except that `created_by` is always overwritten to
the fixed constant "Shaurya Upadhyay", regardless of any caller-supplied
`created_by`. -/
theorem createExperiment_getExperiment_roundtrip
    (db : List DBRow) (payload : DBRow) (genId : String) (row : DBRow) (db' : List DBRow)
    (hok : createExperiment db payload genId = Except.ok (row, db'))
    (hid : ∀ v, getField payload "id" = some v → ∃ s, v = DBValue.vstr s) :
    getField row "created_by" = some (DBValue.vstr "Shaurya Upadhyay") ∧
    (∀ k v, k ≠ "created_by" → getField payload k = some v → getField row k = some v) ∧
    (∃ i, getField row "id" = some (DBValue.vstr i) ∧ getExperiment db' i = Except.ok row) := by
  simp only [createExperiment] at hok
  by_cases hs : (getField (setField payload "created_by" (DBValue.vstr "Shaurya Upadhyay")) "id").isSome = true
  · rw [if_pos hs] at hok
    by_cases hany : (db.any fun r =>
        getField r "id" == getField (setField payload "created_by" (DBValue.vstr "Shaurya Upadhyay")) "id") = true
    · rw [if_pos hany] at hok
      cases hok
    · rw [if_neg hany] at hok
      rw [Except.ok.injEq, Prod.mk.injEq] at hok
      obtain ⟨hrow, hdb'⟩ := hok
      subst hrow
      subst hdb'
      obtain ⟨v, hv⟩ := Option.isSome_iff_exists.mp hs
      have hpv : getField payload "id" = some v := by
        rw [← getField_setField_ne payload "created_by" "id" (DBValue.vstr "Shaurya Upadhyay") (by decide)]
        exact hv
      obtain ⟨s, rfl⟩ := hid v hpv
      refine ⟨getField_setField_same payload "created_by" _, ?_, ?_⟩
      · intro k v' hk hpk
        rw [getField_setField_ne payload "created_by" k _ hk]
        exact hpk
      · refine ⟨s, hv, ?_⟩
        apply getExperiment_append_fresh _ _ _ hv
        intro r hr
        have hfr := List.any_eq_false.mp (Bool.not_eq_true _ |>.mp (by exact hany)) r hr
        rw [hv] at hfr
        simpa using hfr
  · rw [if_neg hs] at hok
    by_cases hany : (db.any fun r =>
        getField r "id" == getField (setField (setField payload "created_by"
          (DBValue.vstr "Shaurya Upadhyay")) "id" (DBValue.vstr genId)) "id") = true
    · rw [if_pos hany] at hok
      cases hok
    · rw [if_neg hany] at hok
      rw [Except.ok.injEq, Prod.mk.injEq] at hok
      obtain ⟨hrow, hdb'⟩ := hok
      subst hrow
      subst hdb'
      have hrowid : getField (setField (setField payload "created_by"
          (DBValue.vstr "Shaurya Upadhyay")) "id" (DBValue.vstr genId)) "id" =
          some (DBValue.vstr genId) :=
        getField_setField_same _ "id" _
      refine ⟨?_, ?_, ?_⟩
      · rw [getField_setField_ne _ "id" "created_by" _ (by decide)]
        exact getField_setField_same payload "created_by" _
      · intro k v' hk hpk
        have hkid : k ≠ "id" := by
          intro hkeq
          subst hkeq
          have hins : getField (setField payload "created_by" (DBValue.vstr "Shaurya Upadhyay")) "id" = some v' := by
            rw [getField_setField_ne payload "created_by" "id" _ (by decide)]
            exact hpk
          rw [hins] at hs
          simp at hs
        rw [getField_setField_ne _ "id" k _ hkid, getField_setField_ne payload "created_by" k _ hk]
        exact hpk
      · refine ⟨genId, hrowid, ?_⟩
        apply getExperiment_append_fresh _ _ _ hrowid
        intro r hr
        have hfr := List.any_eq_false.mp (Bool.not_eq_true _ |>.mp (by exact hany)) r hr
        rw [hrowid] at hfr
        simpa using hfr

/-- C1 witness: the round trip evaluated on a concrete payload into an empty
table. -/
theorem createExperiment_roundtrip_witness :
    getField c1Row "created_by" = some (DBValue.vstr "Shaurya Upadhyay") ∧
    getExperiment [c1Row] "exp-1" = Except.ok c1Row := by
  have happ := createExperiment_getExperiment_roundtrip [] c1Payload "exp-1" c1Row [c1Row]
    (by with_unfolding_all rfl)
    (by
      intro v hv
      have hnone : getField c1Payload "id" = none := by with_unfolding_all decide
      rw [hnone] at hv
      cases hv)
  obtain ⟨hcb, _, i, hi, hg⟩ := happ
  have hieq : getField c1Row "id" = some (DBValue.vstr "exp-1") := by with_unfolding_all decide
  rw [hieq] at hi
  simp only [Option.some.injEq, DBValue.vstr.injEq] at hi
  subst hi
  exact ⟨hcb, hg⟩

/-- C2 counterexample: a bayesian start request with `budget.parallel = 1`
initializes successfully but returns 2 candidates — `min(parallel * 2, 20)` of
them — so the candidates array is NOT bounded by the requested parallelism. -/
theorem bayesian_candidates_exceed_parallel :
    ∃ resp, (handleStartOptimization c2Body 0 rngZero).payload = some resp ∧
      resp.status = "initialized" ∧
      ∃ cands, resp.candidates = some cands ∧ cands.length = 2 ∧ ¬cands.length ≤ 1 := by
  refine ⟨_, rfl, rfl, _, rfl, ?_, ?_⟩ <;>
    rw [generateInitialPopulation_length] <;> decide

/-- C2 (amended): for every start request with a supported algorithm and all
required fields, the handler answers 200, the response status is
"initialized", and the candidates array length is bounded by
`max (2 * budget.parallel) 5` (bayesian returns up to `2 * parallel` samples;
evolutionary and random slice to 5; gradient returns `parallel`;
reinforcement returns none). -/
theorem start_optimization_initialized_and_bounded
    (body : OptRequestBody) (a : String) (space : SearchSpace) (objectives : OptObjectives)
    (bud : OptBudget) (now : ℕ) (rng : ℕ → ℚ)
    (ha : body.algorithm = some a)
    (hmem : a ∈ (["evolutionary", "bayesian", "gradient", "reinforcement", "random"] : List String))
    (hsp : body.searchSpace = some space) (hob : body.objectives = some objectives)
    (hbu : body.budget = some bud) :
    (handleStartOptimization body now rng).status = 200 ∧
    ∃ resp, (handleStartOptimization body now rng).payload = some resp ∧
      resp.status = "initialized" ∧
      ∃ cands, resp.candidates = some cands ∧ cands.length ≤ max (2 * bud.parallel) 5 := by
  unfold handleStartOptimization
  rw [ha, hsp, hob, hbu]
  fin_cases hmem
  · refine ⟨rfl, _, rfl, rfl, _, rfl, ?_⟩
    rw [List.length_take, generateInitialPopulation_length]
    omega
  · refine ⟨rfl, _, rfl, rfl, _, rfl, ?_⟩
    rw [generateInitialPopulation_length]
    omega
  · refine ⟨rfl, _, rfl, rfl, _, rfl, ?_⟩
    rw [generateInitialPopulation_length]
    omega
  · refine ⟨rfl, _, rfl, rfl, _, rfl, ?_⟩
    simp
  · refine ⟨rfl, _, rfl, rfl, _, rfl, ?_⟩
    rw [List.length_take, generateInitialPopulation_length]
    omega

/-- C2 witness: the amended bound evaluated on a concrete reinforcement-learning
start request. -/
theorem start_optimization_bounded_witness :
    (handleStartOptimization reinfBody 0 rngZero).status = 200 ∧
    ∃ resp, (handleStartOptimization reinfBody 0 rngZero).payload = some resp ∧
      resp.status = "initialized" ∧
      ∃ cands, resp.candidates = some cands ∧
        cands.length ≤ max (2 * (⟨10, 1, 1⟩ : OptBudget).parallel) 5 :=
  start_optimization_initialized_and_bounded reinfBody "reinforcement" {} {} ⟨10, 1, 1⟩ 0 rngZero
    rfl (by decide) rfl rfl rfl

/-- C3 counterexample: the API discovery handler serves the capability document
with HTTP 200 to a POST — a method that is neither its accepted GET nor
OPTIONS — instead of responding 405. -/
theorem indexHandler_no_405 :
    (indexHandler "POST").status = 200 ∧ (indexHandler "POST").status ≠ 405 ∧
    (indexHandler "POST").servedDocument = true := by
  with_unfolding_all decide

/-- C3 (amended): the chat, enhanced-chat and NAS AI handlers answer 405 to any
method other than POST and OPTIONS, and the optimization handler answers 405 to
any method outside POST/GET/PUT/DELETE/OPTIONS; the discovery handler at
`GET /api`, however, answers 200 with the capability document for every
non-OPTIONS method and never 405. -/
theorem method_dispatch_405 (m : String) (hp : m ≠ "POST") (ho : m ≠ "OPTIONS") :
    (∀ msgs, (chatHandler m msgs).status = 405) ∧
    (∀ genText msgs, (enhancedHandler genText m msgs).status = 405) ∧
    (∀ op arch ds, (nasAiHandler m op arch ds).status = 405) ∧
    (m ≠ "GET" → m ≠ "PUT" → m ≠ "DELETE" →
      ∀ sid body act now rng, (optimizationHandler m sid body act now rng).status = 405) ∧
    ((indexHandler m).status = 200 ∧ (indexHandler m).servedDocument = true) := by
  refine ⟨?_, ?_, ?_, ?_, ?_⟩
  · intro msgs; simp [chatHandler, ho, hp]
  · intro genText msgs; simp [enhancedHandler, ho, hp]
  · intro op arch ds; simp [nasAiHandler, ho, hp]
  · intro hg hu hd sid body act now rng
    simp [optimizationHandler, ho, hp, hg, hu, hd]
  · simp [indexHandler, ho]

/-- C3 witness: the amended dispatch behaviour evaluated at method "PATCH". -/
theorem method_dispatch_405_witness :
    (chatHandler "PATCH" none).status = 405 ∧
    (nasAiHandler "PATCH" none none none).status = 405 ∧
    (optimizationHandler "PATCH" none {} none 0 rngZero).status = 405 ∧
    (indexHandler "PATCH").status = 200 := by
  have h := method_dispatch_405 "PATCH" (by decide) (by decide)
  exact ⟨h.1 none, h.2.2.1 none none none,
    h.2.2.2.1 (by decide) (by decide) (by decide) none {} none 0 rngZero, h.2.2.2.2.1⟩

/-- C4 counterexample: when all three underlying count queries fail,
`getGlobalStats` does not throw the store error — it has no error check at
all — and instead resolves successfully with all counts defaulted to 0. -/
theorem getGlobalStats_swallows_store_errors :
    getGlobalStats ⟨none, some "relation does not exist"⟩ ⟨none, some "relation does not exist"⟩
      ⟨none, some "relation does not exist"⟩ = ⟨0, 0, 0⟩ := by
  with_unfolding_all decide

/-- C4 (amended): every façade operation built on the
`if (error) throw error` tail rethrows the store error verbatim, while
`getGlobalStats` ignores the error fields of its three count queries and
returns their counts defaulted to 0. -/
theorem facade_error_propagation (e : String) (r : QueryResult DBRow) (h : r.error = some e) :
    facadeCreateExperiment r = Except.error e ∧
    facadeGetExperiments r = Except.error e ∧
    facadeGetExperiment r = Except.error e ∧
    facadeUpdateExperiment r = Except.error e ∧
    facadeCreateArchitecture r = Except.error e ∧
    facadeRecordProgress r = Except.error e ∧
    facadeSaveConversation r = Except.error e ∧
    (∀ r1 r2 r3 : CountResult,
      getGlobalStats r1 r2 r3 = ⟨jsOrZ r1.count, jsOrZ r2.count, jsOrZ r3.count⟩) := by
  refine ⟨?_, ?_, ?_, ?_, ?_, ?_, ?_, fun r1 r2 r3 => rfl⟩ <;>
    simp [facadeCreateExperiment, facadeGetExperiments, facadeGetExperiment,
      facadeUpdateExperiment, facadeCreateArchitecture, facadeRecordProgress,
      facadeSaveConversation, throwOnError, h]

/-- C4 witness: verbatim propagation evaluated on a concrete failing query. -/
theorem facade_error_propagation_witness :
    facadeCreateExperiment (⟨none, some "connection failure"⟩ : QueryResult DBRow) =
      Except.error "connection failure" :=
  (facade_error_propagation "connection failure" ⟨none, some "connection failure"⟩ rfl).1

set_option maxRecDepth 4000 in
/-- C5 counterexample: the POST body "help me optimize" is answered with the
technical-help branch of `generateShauryaResponse` — the `help` keyword matches
first — not with the performance/optimization branch, whose keywords
("performance", "accuracy", "optimization") do not occur in the prompt. -/
theorem chat_optimize_prompt_not_optimization_branch :
    (chatHandler "POST" (some [⟨"user", "help me optimize"⟩])).content = some chatHelpText ∧
    chatHelpText ≠ chatPerformanceText ∧
    (chatHandler "POST" (some [⟨"user", "help me optimize"⟩])).content ≠ some chatPerformanceText := by
  have hg : generateShauryaResponse "help me optimize" [⟨"user", "help me optimize"⟩] = chatHelpText := by
    with_unfolding_all decide
  have hstep : chatHandler "POST" (some [⟨"user", "help me optimize"⟩]) =
      ⟨200, some (generateShauryaResponse "help me optimize" [⟨"user", "help me optimize"⟩]),
       some (generateShauryaResponse "help me optimize" [⟨"user", "help me optimize"⟩]),
       some (generateShauryaResponse "help me optimize" [⟨"user", "help me optimize"⟩])⟩ := rfl
  have hne : chatHelpText ≠ chatPerformanceText := by with_unfolding_all decide
  refine ⟨by rw [hstep, hg], hne, ?_⟩
  rw [hstep, hg]
  simp [hne]

set_option maxRecDepth 4000 in
/-- C5 (amended): POSTing a single user message "hello" yields 200 with the
fixed greeting as `content`; POSTing "help me optimize" yields 200 with the
technical-help branch text as `content` (not the optimization branch). -/
theorem chat_example_scenarios :
    (chatHandler "POST" (some [⟨"user", "hello"⟩])).status = 200 ∧
    (chatHandler "POST" (some [⟨"user", "hello"⟩])).content = some chatGreetingText ∧
    (chatHandler "POST" (some [⟨"user", "help me optimize"⟩])).status = 200 ∧
    (chatHandler "POST" (some [⟨"user", "help me optimize"⟩])).content = some chatHelpText := by
  have hg1 : generateShauryaResponse "hello" [⟨"user", "hello"⟩] = chatGreetingText := by
    with_unfolding_all decide
  have hg2 : generateShauryaResponse "help me optimize" [⟨"user", "help me optimize"⟩] = chatHelpText := by
    with_unfolding_all decide
  have hstep1 : chatHandler "POST" (some [⟨"user", "hello"⟩]) =
      ⟨200, some (generateShauryaResponse "hello" [⟨"user", "hello"⟩]),
       some (generateShauryaResponse "hello" [⟨"user", "hello"⟩]),
       some (generateShauryaResponse "hello" [⟨"user", "hello"⟩])⟩ := rfl
  have hstep2 : chatHandler "POST" (some [⟨"user", "help me optimize"⟩]) =
      ⟨200, some (generateShauryaResponse "help me optimize" [⟨"user", "help me optimize"⟩]),
       some (generateShauryaResponse "help me optimize" [⟨"user", "help me optimize"⟩]),
       some (generateShauryaResponse "help me optimize" [⟨"user", "help me optimize"⟩])⟩ := rfl
  exact ⟨by rw [hstep1], by rw [hstep1, hg1], by rw [hstep2], by rw [hstep2, hg2]⟩

/-- C6: evaluating an architecture whose layers list is empty yields
`parameterCount = 0` and `estimatedAccuracy` exactly equal to the
dataset-specific baseline: 0.85 for cifar10, 0.6 for cifar100, 0.7 for
imagenet and every other dataset. -/
theorem evaluate_empty_layers (arch : EvalArchitecture) (dataset : String)
    (h : arch.layers.getD [] = []) :
    ∃ m, (evaluateArchitecture (some arch) dataset).metrics = some m ∧
      m.parameterCount = 0 ∧
      m.estimatedAccuracy =
        (if dataset = "cifar10" then 0.85 else if dataset = "cifar100" then 0.6 else 0.7) := by
  unfold evaluateArchitecture
  simp only [h]
  by_cases h1 : dataset = "cifar10"
  · subst h1
    refine ⟨_, rfl, by with_unfolding_all decide, by with_unfolding_all decide⟩
  · by_cases h2 : dataset = "cifar100"
    · subst h2
      refine ⟨_, rfl, by with_unfolding_all decide, by with_unfolding_all decide⟩
    · by_cases h3 : dataset = "imagenet"
      · subst h3
        refine ⟨_, rfl, by with_unfolding_all decide, by with_unfolding_all decide⟩
      · refine ⟨_, rfl, ?_, ?_⟩
        · simp [evalLayersLoop]
        · simp only [if_neg h1, if_neg h2, if_neg h3]
          simp only [evalLayersLoop]
          with_unfolding_all decide

/-- C6 witness: the empty architecture evaluated against cifar10. -/
theorem evaluate_empty_layers_witness :
    ∃ m, (evaluateArchitecture (some ⟨some []⟩) "cifar10").metrics = some m ∧
      m.parameterCount = 0 ∧
      m.estimatedAccuracy =
        (if "cifar10" = "cifar10" then 0.85 else if "cifar10" = "cifar100" then 0.6 else 0.7) :=
  evaluate_empty_layers ⟨some []⟩ "cifar10" rfl

/-- C7: a POST whose `messages` array is present but whose last entry is
missing (empty array) or has a role other than "user" is answered 400 by both
the chat handler and the enhanced handler. -/
theorem invalid_last_message_400 (msgs : List ChatMessage)
    (genText : String → List ChatMessage → String)
    (h : msgs.getLast?.all (fun l => l.role != "user") = true) :
    (chatHandler "POST" (some msgs)).status = 400 ∧
    (enhancedHandler genText "POST" (some msgs)).status = 400 := by
  unfold chatHandler enhancedHandler
  cases hl : msgs.getLast? with
  | none => simp [hl]
  | some lastMessage =>
    rw [hl] at h
    simp only [Option.all, bne_iff_ne, ne_eq] at h
    simp [hl, h]

/-- C7 witness: a message list ending in an assistant turn. -/
theorem invalid_last_message_400_witness :
    (chatHandler "POST" (some [⟨"assistant", "hi"⟩])).status = 400 ∧
    (enhancedHandler echoGen "POST" (some [⟨"assistant", "hi"⟩])).status = 400 :=
  invalid_last_message_400 [⟨"assistant", "hi"⟩] echoGen (by with_unfolding_all decide)

/-- C8: the enhanced handler's classification equals first-match search over
the fixed ordered bucket list — optimization, comparison, performance,
hardware, search, design, troubleshooting, dataset — on the lowercased prompt,
with default "general". -/
theorem classifyInput_is_first_match (s : String) : classifyInput s = classifyFirstMatch s := by
  unfold classifyInput classifyFirstMatch classificationBuckets
  simp only [List.find?]
  cases h1 : regexTest patsOptimization (jsToLower s) <;>
  cases h2 : regexTest patsComparison (jsToLower s) <;>
  cases h3 : regexTest patsPerformance (jsToLower s) <;>
  cases h4 : regexTest patsHardware (jsToLower s) <;>
  cases h5 : regexTest patsSearch (jsToLower s) <;>
  cases h6 : regexTest patsDesign (jsToLower s) <;>
  cases h7 : regexTest patsTroubleshooting (jsToLower s) <;>
  cases h8 : regexTest patsDataset (jsToLower s) <;>
  simp_all

/-- C9: whenever the chat handler or the enhanced handler answers 200, the
reply string is identical under the three response keys `content`, `text` and
`choices[0].message.content`. -/
theorem chat_response_triple_keys (method : String) (messages : Option (List ChatMessage))
    (genText : String → List ChatMessage → String) :
    ((chatHandler method messages).status = 200 →
      (chatHandler method messages).content = (chatHandler method messages).text ∧
      (chatHandler method messages).choicesContent = (chatHandler method messages).text) ∧
    ((enhancedHandler genText method messages).status = 200 →
      (enhancedHandler genText method messages).content = (enhancedHandler genText method messages).text ∧
      (enhancedHandler genText method messages).choicesContent = (enhancedHandler genText method messages).text) := by
  constructor
  · intro _
    unfold chatHandler
    split_ifs
    · simp
    · simp
    · cases messages with
      | none => simp
      | some msgs =>
        cases hl : msgs.getLast? with
        | none => simp [hl]
        | some lastMessage =>
          by_cases h : lastMessage.role = "user" <;> simp [hl, h]
  · intro _
    unfold enhancedHandler
    split_ifs
    · simp
    · simp
    · cases messages with
      | none => simp
      | some msgs =>
        cases hl : msgs.getLast? with
        | none => simp [hl]
        | some lastMessage =>
          by_cases h : lastMessage.role = "user" <;> simp [hl, h]

/-- C9 witness: the triple-keyed response on a concrete successful request. -/
theorem chat_response_triple_keys_witness :
    (chatHandler "POST" (some [⟨"user", "hello"⟩])).content =
      (chatHandler "POST" (some [⟨"user", "hello"⟩])).text ∧
    (chatHandler "POST" (some [⟨"user", "hello"⟩])).choicesContent =
      (chatHandler "POST" (some [⟨"user", "hello"⟩])).text :=
  (chat_response_triple_keys "POST" (some [⟨"user", "hello"⟩]) echoGen).1
    (by with_unfolding_all decide)

/-- C10: every candidates array returned by the optimization handler's start
operation (any algorithm) and by the status operation is sorted in
non-increasing score order, so its first element has the maximal score among
those returned. -/
theorem optimization_candidates_sorted :
    (∀ (body : OptRequestBody) (now : ℕ) (rng : ℕ → ℚ) (resp : OptResponse),
      (handleStartOptimization body now rng).payload = some resp →
      ∀ cands, resp.candidates = some cands →
        cands.Sorted (fun a b => b.score ≤ a.score) ∧
        ∀ c0 cs, cands = c0 :: cs → ∀ c ∈ cands, c.score ≤ c0.score) ∧
    (∀ (sid : String) (now : ℕ) (rng : ℕ → ℚ) (cands : List OptCandidate),
      (getOptimizationStatus sid now rng).candidates = some cands →
        cands.Sorted (fun a b => b.score ≤ a.score) ∧
        ∀ c0 cs, cands = c0 :: cs → ∀ c ∈ cands, c.score ≤ c0.score) := by
  constructor
  · intro body now rng resp hp cands hc
    unfold handleStartOptimization at hp
    split at hp
    · split at hp
      · simp at hp
      · split at hp
        · dsimp only at hp
          replace hp := Option.some.inj hp
          subst hp
          dsimp only [initializeEvolutionarySearch] at hc
          replace hc := Option.some.inj hc
          subst hc
          exact ⟨(generateInitialPopulation_sorted _ _ _ _ _ _).sublist (List.take_sublist 5 _),
            sorted_desc_head_max _
              ((generateInitialPopulation_sorted _ _ _ _ _ _).sublist (List.take_sublist 5 _))⟩
        · split at hp
          · dsimp only at hp
            replace hp := Option.some.inj hp
            subst hp
            dsimp only [initializeBayesianOptimization] at hc
            replace hc := Option.some.inj hc
            subst hc
            exact ⟨generateInitialPopulation_sorted _ _ _ _ _ _,
              sorted_desc_head_max _ (generateInitialPopulation_sorted _ _ _ _ _ _)⟩
          · split at hp
            · dsimp only at hp
              replace hp := Option.some.inj hp
              subst hp
              dsimp only [initializeGradientBasedSearch] at hc
              replace hc := Option.some.inj hc
              subst hc
              exact ⟨generateInitialPopulation_sorted _ _ _ _ _ _,
                sorted_desc_head_max _ (generateInitialPopulation_sorted _ _ _ _ _ _)⟩
            · split at hp
              · dsimp only at hp
                replace hp := Option.some.inj hp
                subst hp
                dsimp only [initializeReinforcementLearning] at hc
                replace hc := Option.some.inj hc
                subst hc
                exact ⟨List.sorted_nil, by rintro c0 cs ⟨⟩⟩
              · split at hp
                · dsimp only at hp
                  replace hp := Option.some.inj hp
                  subst hp
                  dsimp only [initializeRandomSearch] at hc
                  replace hc := Option.some.inj hc
                  subst hc
                  exact ⟨(generateInitialPopulation_sorted _ _ _ _ _ _).sublist (List.take_sublist 5 _),
                    sorted_desc_head_max _
                      ((generateInitialPopulation_sorted _ _ _ _ _ _).sublist (List.take_sublist 5 _))⟩
                · simp at hp
    · simp at hp
  · intro sid now rng cands hc
    dsimp only [getOptimizationStatus] at hc
    replace hc := Option.some.inj hc
    subst hc
    exact ⟨generateInitialPopulation_sorted 5 {} none now rng 3,
      sorted_desc_head_max _ (generateInitialPopulation_sorted 5 {} none now rng 3)⟩

/-- C10 witness: sortedness of the candidates returned by a concrete status
poll. -/
theorem optimization_candidates_sorted_witness :
    ((generateInitialPopulation 5 {} none 0 rngZero 3).1).Sorted
      (fun a b => b.score ≤ a.score) :=
  (optimization_candidates_sorted.2 "search-1" 0 rngZero _ rfl).1
